import Mathlib

/-!
# Cel / REI render pipelines: the ImGui overlay pass and the deferred pipeline

A shallow embedding of

* `src/render_pipelines/imgui_pass.cpp` (`ImGuiPass::run`),
* `src/render_pipelines/deferred.h` (the inline members of `DeferredPipeline`),
* `src/model.cpp` with `src/model.h` (the constructor `Mesh::Mesh`), and
* `include/color.h` (the class `Color`),

followed by theorems about them.

Conventions of the embedding.

* Handles are natural numbers; `c_empty_handle` is `0`.
* The `float` coordinates of the ImGui draw data (`ImVec2`, `ImVec4`) are
  IEEE 754 binary32 values (`Binary32`): a finite value is a mantissa and an
  exponent, the sign of a zero is not kept.  A subtraction of two floats is
  evaluated in binary32 (`FLT_EVAL_METHOD` 0) and rounded to nearest, ties to
  even; the conversion `int(f)` truncates toward zero.  When the truncated
  value does not fit a 32-bit `int`, or `f` is an infinity or a NaN, C++ leaves
  the conversion undefined; the embedding takes the value x86-64 gives,
  `INT_MIN`.
* The viewport rectangle (`Rectf`) and the colours and vectors of the `CEL`
  part are exact rationals: what is proved about them is stated over exact
  arithmetic.
* `size_t` / `unsigned int` counters are natural numbers.  Every ImGui buffer
  size is an `int` and there are at most `INT_MAX` lists, so the running sums
  of `ImGuiPass::run` stay below `2^62` and never wrap a `size_t`; the fields
  of `DrawCommand`, whose declaration is in a header that is not among the
  sources, are taken to hold them.
* A user callback is foreign code.  Its invocation is an event of the
  diagnostic channel; it is handed the ImGui list and the batch, not the
  command list, and is taken not to record on it.
* The renderer `r`, the command list returned by `r->prepare()` and the
  diagnostic channel (`REI_WARNING`, user callbacks) are external objects.  A
  run returns, for each of them, the calls it made, in program order.
* A `std::vector` is a list, and an iterator into the vertex vector of a mesh
  is its distance from `vertices.begin()`.
-/

namespace CEL

/-! ## `color.h` -/

/-- The class `Color`: the four public float components `r`, `g`, `b`, `a`. -/
structure Color where
  r : ℚ
  g : ℚ
  b : ℚ
  a : ℚ
deriving DecidableEq, Repr

/-- The constructor `Color(float r, float g, float b, float a)`, color.h line 26, with
all four arguments given. -/
def Color.rgba (r g b a : ℚ) : Color := { r := r, g := g, b := b, a := a }

/-- The same constructor called with three arguments: `a` takes its default `1.0`. -/
def Color.rgb (r g b : ℚ) : Color := Color.rgba r g b 1

/-- The member `Color operator*(float c)`, color.h line 29. -/
def Color.mul (col : Color) (c : ℚ) : Color :=
  Color.rgba (col.r * c) (col.g * c) (col.b * c) (col.a * c)

/-- The range the comment of color.h line 16 names: every component in `[0, 1]`. -/
def Color.in_range (col : Color) : Prop :=
  (0 ≤ col.r ∧ col.r ≤ 1) ∧ (0 ≤ col.g ∧ col.g ≤ 1) ∧
  (0 ≤ col.b ∧ col.b ≤ 1) ∧ (0 ≤ col.a ∧ col.a ≤ 1)

/-! ## `model.h` and `model.cpp` -/

/-- The class `Vec3` of algebra.h, by its components. -/
structure Vec3 where
  x : ℚ
  y : ℚ
  z : ℚ
deriving DecidableEq, Repr

/-- The class `Vec4` of algebra.h, by its components. -/
structure Vec4 where
  x : ℚ
  y : ℚ
  z : ℚ
  w : ℚ
deriving DecidableEq, Repr

/-- The struct `Mesh::Vertex`, model.h lines 42-51. -/
structure Vertex where
  coord : Vec4
  normal : Vec3
  color : Color
deriving DecidableEq, Repr

/-- The struct template `TriangleImp<VertexId>`, model.h lines 54-61; model.cpp calls it
`Triangle`. -/
structure TriangleImp (VertexId : Type) where
  a : VertexId
  b : VertexId
  c : VertexId
deriving DecidableEq, Repr

/-- The type `VertexIt`, an iterator into the vertex vector of a mesh: its distance
from `vertices.begin()`. -/
structure VertexIt where
  pos : Int
deriving DecidableEq, Repr

/-- The iterator `vertices.begin()`. -/
def VertexIt.begin : VertexIt := { pos := 0 }

/-- The iterator `it + n`. -/
def VertexIt.add (it : VertexIt) (n : Int) : VertexIt := { pos := it.pos + n }

/-- The vertex `*it` of the vector `vertices`, when `it` points inside it. -/
def VertexIt.deref (it : VertexIt) (vertices : List Vertex) : Option Vertex :=
  if 0 ≤ it.pos then vertices[it.pos.toNat]? else none

/-- The class `Mesh`: the two private members. -/
structure Mesh where
  vertices : List Vertex
  triangles : List (TriangleImp VertexIt)
deriving DecidableEq, Repr

/-- The constructor `Mesh::Mesh(vector<Vertex> va, vector<Triangle<int>> ta)`,
model.cpp lines 11-19: copy the vertices, then push one triangle of iterators per
index triangle. -/
def Mesh.Mesh (va : List Vertex) (ta : List (TriangleImp Int)) : Mesh :=
  let vertices := va
  let offset := VertexIt.begin
  { vertices := vertices,
    triangles := ta.foldl (fun triangles tri =>
      triangles ++ [{ a := offset.add tri.a, b := offset.add tri.b, c := offset.add tri.c }])
      [] }

/-- Whether an index lies in `[0, n)`. -/
def index_ok (n : Nat) (k : Int) : Prop := 0 ≤ k ∧ k < n

/-! ## Concrete inputs -/

/-- A grey vertex at a position, with the zero normal. -/
def grey_vertex (x y z : ℚ) : Vertex :=
  { coord := ⟨x, y, z, 1⟩, normal := ⟨0, 0, 0⟩, color := Color.rgba (1 / 2) (1 / 2) (1 / 2) 1 }

/-- The three vertices of scenario B of the spec. -/
def triangle_vertices : List Vertex :=
  [grey_vertex 0 0 0, grey_vertex 1 0 0, grey_vertex 0 1 0]

/-- The single index triangle of scenario B, with its corners in the order 2, 0, 1. -/
def triangle_indices : List (TriangleImp Int) := [{ a := 2, b := 0, c := 1 }]

end CEL

namespace rei

/-! ## Handles and renderer-side data -/

/-- Every handle type of the engine (buffer, shader, texture, shader argument). -/
abbrev Handle := Nat

/-- The reserved empty handle. -/
def c_empty_handle : Handle := 0

/-- A `float`: an IEEE 754 binary32 value.  `finite m e` is `m * 2^e`; it is a value of
the format when it can be written with `|m| < 2^24` and `-149 ≤ e ≤ 104`. -/
inductive Binary32 where
  | finite (m : Int) (e : Int)
  | inf (negative : Bool)
  | nan
deriving DecidableEq, Repr

/-- The number of binary digits of `n`, computed on `fuel` digits at most. -/
def bit_length_loop : Nat → Nat → Nat
  | 0, _ => 0
  | fuel + 1, n => if n = 0 then 0 else bit_length_loop fuel (n / 2) + 1

/-- The number of binary digits of `n`; `0` has none. -/
def bit_length (n : Nat) : Nat := bit_length_loop n n

/-- The binary32 value nearest to the exact `m * 2^e`, ties to even: the unit in the last
place is `2^q` with `q = max (p - 23) (-149)`, where `2^p` is the leading digit; a result
of `2^128` or more is an infinity. -/
def Binary32.round (m e : Int) : Binary32 :=
  let n := m.natAbs
  let p : Int := e + bit_length n - 1
  let q : Int := max (p - 23) (-149)
  if q ≤ e then
    if 128 ≤ p then Binary32.inf (decide (m < 0)) else Binary32.finite m e
  else
    let shift := (q - e).toNat
    let k := n / 2 ^ shift
    let r := n % 2 ^ shift
    let half := 2 ^ (shift - 1)
    let k1 := if half < r ∨ (r = half ∧ k % 2 = 1) then k + 1 else k
    if 128 < (bit_length k1 : Int) + q then Binary32.inf (decide (m < 0))
    else Binary32.finite (if m < 0 then -(k1 : Int) else k1) q

/-- The C++ expression `a - b` on two floats: the exact difference, written over the
smaller exponent, then rounded. -/
def Binary32.sub : Binary32 → Binary32 → Binary32
  | Binary32.finite m1 e1, Binary32.finite m2 e2 =>
    Binary32.round (m1 * 2 ^ (e1 - min e1 e2).toNat - m2 * 2 ^ (e2 - min e1 e2).toNat)
      (min e1 e2)
  | Binary32.finite _ _, Binary32.inf s => Binary32.inf (!s)
  | Binary32.inf s, Binary32.finite _ _ => Binary32.inf s
  | Binary32.inf s1, Binary32.inf s2 => if s1 = s2 then Binary32.nan else Binary32.inf s1
  | _, _ => Binary32.nan

/-- The C++ conversion `int(f)` of a float: truncation toward zero when the result fits a
32-bit `int`, and `INT_MIN` otherwise (undefined in C++, the x86-64 result). -/
def Binary32.to_int : Binary32 → Int
  | Binary32.finite m e =>
    let t := if 0 ≤ e then m * 2 ^ e.toNat else Int.tdiv m (2 ^ (-e).toNat)
    if -2 ^ 31 ≤ t ∧ t ≤ 2 ^ 31 - 1 then t else -2 ^ 31
  | _ => -2 ^ 31

/-- An address handed to the renderer; `0` is the null pointer. -/
abbrev Addr := Nat

/-- The struct `LowLevelGeometryData`: where the elements are, how many, how wide. -/
structure LowLevelGeometryData where
  addr : Addr := 0
  element_count : Nat := 0
  element_bytesize : Nat := 0
deriving DecidableEq, Repr

/-- The helper `LowLevelGeometryData::size_only(count, bytesize)`: a descriptor that
carries a capacity and no data. -/
def LowLevelGeometryData.size_only (count bytesize : Nat) : LowLevelGeometryData :=
  { addr := 0, element_count := count, element_bytesize := bytesize }

/-- The flags of `LowLevelGeometryDesc` that `run` sets. -/
structure GeometryFlags where
  dynamic : Bool := false
  include_blas : Bool := true
deriving DecidableEq, Repr

/-- The struct `LowLevelGeometryDesc {index, vertex}` with its flags. -/
structure LowLevelGeometryDesc where
  index : LowLevelGeometryData
  vertex : LowLevelGeometryData
  flags : GeometryFlags := {}
deriving DecidableEq, Repr

/-- What `create_geometry` returns. -/
structure GeometryBuffers where
  index_buffer : Handle
  vertex_buffer : Handle
deriving DecidableEq, Repr

/-- The resource states named in `run`. -/
inductive ResourceState where
  | CopyDestination
  | PixelShaderResource
  | RenderTarget
deriving DecidableEq, Repr

/-- An integer rectangle `{x, y, width, height}`; `{}` is all zero. -/
structure RenderArea where
  x : Int := 0
  y : Int := 0
  width : Int := 0
  height : Int := 0
deriving DecidableEq, Repr

/-- The value `RenderViewaport::full(width, height)`. -/
structure RenderViewaport where
  width : Binary32
  height : Binary32
deriving DecidableEq, Repr

/-- The full-target viewport built by `RenderViewaport::full`. -/
def RenderViewaport.full (w h : Binary32) : RenderViewaport := { width := w, height := h }

/-- The struct `RenderPassCommand` as `run` fills it. -/
structure RenderPassCommand where
  render_targets : List Handle
  depth_stencil : Handle
  clear_rt : Bool
  clear_ds : Bool
  viewport : RenderViewaport
  area : RenderArea
deriving DecidableEq, Repr

/-- The struct `DrawCommand`; the default value is `DrawCommand draw {}`. -/
structure DrawCommand where
  index_buffer : Handle := c_empty_handle
  vertex_buffer : Handle := c_empty_handle
  shader : Handle := c_empty_handle
  arguments : List Handle := []
  index_count : Nat := 0
  index_offset : Nat := 0
  vertex_offset : Nat := 0
  override_area : RenderArea := {}
deriving DecidableEq, Repr

/-- A 4x4 matrix, row by row. -/
abbrev Mat4 := List (List ℚ)

/-! ## ImGui draw data -/

/-- The struct `ImVec2`. -/
structure ImVec2 where
  x : Binary32
  y : Binary32
deriving DecidableEq, Repr

/-- The struct `ImVec4`; for a clip rectangle `(x, y)` is the upper-left and `(z, w)` the
lower-right corner. -/
structure ImVec4 where
  x : Binary32
  y : Binary32
  z : Binary32
  w : Binary32
deriving DecidableEq, Repr

/-- The type `ImDrawCallback`: a function pointer, by its value; `0` is `NULL`. -/
abbrev ImDrawCallback := Nat

/-- The reserved value `ImDrawCallback_ResetRenderState`, which imgui.h defines as
`(ImDrawCallback)(-1)`: the all-ones pointer. -/
def ImDrawCallback_ResetRenderState : ImDrawCallback := 2 ^ 64 - 1

/-- The struct `ImDrawCmd`: one draw batch. -/
structure ImDrawCmd where
  ElemCount : Nat
  ClipRect : ImVec4
  TextureId : Nat
  VtxOffset : Nat
  IdxOffset : Nat
  UserCallback : ImDrawCallback
deriving DecidableEq, Repr

/-- An `ImVector`: a data pointer and an element count. -/
structure ImVector where
  Data : Addr
  Size : Nat
deriving DecidableEq, Repr

/-- The struct `ImDrawList`: batches plus the index and vertex data they read. -/
structure ImDrawList where
  CmdBuffer : List ImDrawCmd
  IdxBuffer : ImVector
  VtxBuffer : ImVector
deriving DecidableEq, Repr

/-- The struct `ImDrawData`; `CmdListsCount` is the length of `CmdLists`. -/
structure ImDrawData where
  CmdLists : List ImDrawList
  DisplayPos : ImVec2
  DisplaySize : ImVec2
deriving DecidableEq, Repr

/-- The struct `Rectf`. -/
structure Rectf where
  x : ℚ
  y : ℚ
  width : ℚ
  height : ℚ
deriving DecidableEq, Repr

/-- What `run` reads of `ImGUI::RenderData` (`editor/imgui_global.h`): the two totals,
the viewport rectangle, and the two element sizes `index_bytesize()` and
`vertec_bytesize()`. -/
structure RenderData where
  total_index_count : Nat
  total_vertex_count : Nat
  viewport : Rectf
  index_bytesize : Nat
  vertec_bytesize : Nat
deriving DecidableEq, Repr

/-- The struct `ImGuiPass::Parameters`. -/
structure Parameters where
  render_target : Handle
deriving DecidableEq, Repr

/-! ## The three external channels of a run -/

/-- A call on the renderer `r`.  `update_geometry` is the two-argument call of lines
146-147, `update_geometry_at` the three-argument call of lines 179 and 182. -/
inductive RendererCall where
  | create_geometry (desc : LowLevelGeometryDesc)
  | update_geometry (buffer : Handle) (data : LowLevelGeometryData)
  | update_geometry_at (buffer : Handle) (data : LowLevelGeometryData) (offset : Nat)
  | update_const_buffer (buffer : Handle) (index : Nat) (member : Nat) (value : Mat4)
  | prepare
deriving DecidableEq, Repr

/-- An operation recorded on the command list. -/
inductive Command where
  | transition (target : Handle) (state : ResourceState)
  | begin_render_pass (pass : RenderPassCommand)
  | draw (cmd : DrawCommand)
  | end_render_pass
deriving DecidableEq, Repr

/-- A diagnostic event: a `REI_WARNING`, or the invocation of a user callback with the
command list and the batch it was registered on. -/
inductive Diag where
  | warning (msg : String)
  | user_callback (fn : ImDrawCallback) (list : ImDrawList) (cmd : ImDrawCmd)
deriving DecidableEq, Repr

/-- The members of `ImGuiPass` that `run` reads or writes. -/
structure ImGuiPass where
  m_imgui_shader : Handle
  m_imgui_fonts_texture : Handle
  m_imgui_constbuffer : Handle
  m_fonts_arg : Handle
  m_imgui_index_buffer : Handle
  m_imgui_vertex_buffer : Handle
deriving DecidableEq, Repr

/-- The renderer as `run` observes it: the handles `create_geometry` answers with. -/
structure Renderer where
  create_geometry : LowLevelGeometryDesc → GeometryBuffers

/-- Everything a run leaves behind. -/
structure RunResult where
  pass : ImGuiPass
  renderer : List RendererCall
  cmd_list : List Command
  diag : List Diag
deriving DecidableEq, Repr

/-! ## `ImGuiPass::run` -/

/-- Lines 130-149, "update buffer size": create the two buffers when the stored vertex
buffer handle is empty, declare the new sizes otherwise.  Returns the updated members
and the renderer calls made. -/
def update_buffer_size (p : ImGuiPass) (r : Renderer) (data : RenderData) :
    ImGuiPass × List RendererCall :=
  let total_index := LowLevelGeometryData.size_only data.total_index_count data.index_bytesize
  let total_vertex :=
    LowLevelGeometryData.size_only data.total_vertex_count data.vertec_bytesize
  if p.m_imgui_vertex_buffer = c_empty_handle then
    let desc : LowLevelGeometryDesc :=
      { index := total_index, vertex := total_vertex,
        flags := { dynamic := true, include_blas := false } }
    let buffers := r.create_geometry desc
    ({ p with m_imgui_index_buffer := buffers.index_buffer,
              m_imgui_vertex_buffer := buffers.vertex_buffer },
     [RendererCall.create_geometry desc])
  else
    (p, [RendererCall.update_geometry p.m_imgui_index_buffer total_index,
         RendererCall.update_geometry p.m_imgui_vertex_buffer total_vertex])

/-- Lines 155-165: the projection matrix built from the ImGui viewport. -/
def mvp (vp : Rectf) : Mat4 :=
  let L := vp.x
  let R := vp.x + vp.width
  let T := vp.y
  let B := vp.y + vp.height
  [[2 / (R - L), 0, 0, 0],
   [0, 2 / (T - B), 0, 0],
   [0, 0, 1 / 2, 0],
   [(R + L) / (L - R), (T + B) / (B - T), 1 / 2, 1]]

/-- Lines 175-185: the upload loop over the remaining lists, entered with the running
`index_count` and `vertex_count`. -/
def upload_loop (p : ImGuiPass) (data : RenderData) :
    List ImDrawList → Nat → Nat → List RendererCall
  | [], _, _ => []
  | cmd_list :: rest, index_count, vertex_count =>
    let index : LowLevelGeometryData :=
      { addr := cmd_list.IdxBuffer.Data, element_count := cmd_list.IdxBuffer.Size,
        element_bytesize := data.index_bytesize }
    let vertex : LowLevelGeometryData :=
      { addr := cmd_list.VtxBuffer.Data, element_count := cmd_list.VtxBuffer.Size,
        element_bytesize := data.vertec_bytesize }
    RendererCall.update_geometry_at p.m_imgui_index_buffer index index_count ::
    RendererCall.update_geometry_at p.m_imgui_vertex_buffer vertex vertex_count ::
    upload_loop p data rest (index_count + cmd_list.IdxBuffer.Size)
      (vertex_count + cmd_list.VtxBuffer.Size)

/-- The variables the draw loop carries from one batch to the next: the reused local
`draw`, the command list and the diagnostic channel. -/
structure DrawState where
  draw : DrawCommand
  cmd_list : List Command
  diag : List Diag
deriving DecidableEq, Repr

/-- Lines 210-234: the body of the inner loop, for the batch `pcmd` of `im_cmd_list`. -/
def draw_batch (p : ImGuiPass) (clip_off : ImVec2) (global_idx_offset global_vtx_offset : Nat)
    (im_cmd_list : ImDrawList) (s : DrawState) (pcmd : ImDrawCmd) : DrawState :=
  if pcmd.UserCallback ≠ 0 then
    if pcmd.UserCallback = ImDrawCallback_ResetRenderState then
      { s with diag := s.diag ++ [Diag.warning "Ignored callback"] }
    else
      { s with diag := s.diag ++ [Diag.user_callback pcmd.UserCallback im_cmd_list pcmd] }
  else
    let draw : DrawCommand :=
      { s.draw with
        override_area :=
          { x := (pcmd.ClipRect.x.sub clip_off.x).to_int,
            y := (pcmd.ClipRect.y.sub clip_off.y).to_int,
            width := (pcmd.ClipRect.z.sub pcmd.ClipRect.x).to_int,
            height := (pcmd.ClipRect.w.sub pcmd.ClipRect.y).to_int },
        index_count := pcmd.ElemCount,
        index_offset := pcmd.IdxOffset + global_idx_offset,
        vertex_offset := pcmd.VtxOffset + global_vtx_offset }
    if pcmd.TextureId = 0 then
      let draw := { draw with arguments := [p.m_fonts_arg] }
      { s with draw := draw, cmd_list := s.cmd_list ++ [Command.draw draw] }
    else
      { draw := draw, cmd_list := s.cmd_list ++ [Command.draw draw],
        diag := s.diag ++ [Diag.warning "Unknow texture"] }

/-- Lines 207-238: the outer draw loop over the remaining lists, entered with the running
global offsets. -/
def draw_loop (p : ImGuiPass) (clip_off : ImVec2) :
    List ImDrawList → Nat → Nat → DrawState → DrawState
  | [], _, _, s => s
  | im_cmd_list :: rest, global_idx_offset, global_vtx_offset, s =>
    draw_loop p clip_off rest (global_idx_offset + im_cmd_list.IdxBuffer.Size)
      (global_vtx_offset + im_cmd_list.VtxBuffer.Size)
      (im_cmd_list.CmdBuffer.foldl
        (draw_batch p clip_off global_idx_offset global_vtx_offset im_cmd_list) s)

/-- Lines 191-197: the render pass description. -/
def raster (draw_data : ImDrawData) (params : Parameters) : RenderPassCommand :=
  { render_targets := [params.render_target],
    depth_stencil := c_empty_handle,
    clear_rt := false,
    clear_ds := false,
    viewport := RenderViewaport.full draw_data.DisplaySize.x draw_data.DisplaySize.y,
    area := {} }

/-- Lines 200-206: the state in which the draw loop is entered, on a command list that
holds the transition and the pass begin. -/
def draw_start (p : ImGuiPass) (draw_data : ImDrawData) (params : Parameters) : DrawState :=
  { draw := { index_buffer := p.m_imgui_index_buffer,
              vertex_buffer := p.m_imgui_vertex_buffer,
              shader := p.m_imgui_shader },
    cmd_list := [Command.transition params.render_target ResourceState.RenderTarget,
                 Command.begin_render_pass (raster draw_data params)],
    diag := [] }

/-- The method `ImGuiPass::run`, lines 118-241.  `data` is the render data prepared by
`g_ImGUI` and `draw_data` the ImGui draw data the loops walk. -/
def ImGuiPass.run (p : ImGuiPass) (r : Renderer) (data : RenderData) (draw_data : ImDrawData)
    (params : Parameters) : RunResult :=
  let sized := update_buffer_size p r data
  let p1 := sized.1
  let s := draw_loop p1 draw_data.DisplayPos draw_data.CmdLists 0 0
    (draw_start p1 draw_data params)
  { pass := p1,
    renderer := sized.2
      ++ [RendererCall.update_const_buffer p1.m_imgui_constbuffer 0 0 (mvp data.viewport)]
      ++ upload_loop p1 data draw_data.CmdLists 0 0
      ++ [RendererCall.prepare],
    cmd_list := s.cmd_list ++ [Command.end_render_pass],
    diag := s.diag }

/-! ## Vocabulary of the statements -/

/-- The diagnostic events of one batch. -/
def batch_diag (im_cmd_list : ImDrawList) (pcmd : ImDrawCmd) : List Diag :=
  if pcmd.UserCallback ≠ 0 then
    if pcmd.UserCallback = ImDrawCallback_ResetRenderState then
      [Diag.warning "Ignored callback"]
    else [Diag.user_callback pcmd.UserCallback im_cmd_list pcmd]
  else if pcmd.TextureId = 0 then [] else [Diag.warning "Unknow texture"]

/-- The exact rational `m * 2^e`, the value of `Binary32.finite m e`. -/
def dyadic (m e : Int) : ℚ := (m : ℚ) * (2 : ℚ) ^ e

/-- In the words of the spec: `trunc` of an exact rational, its integer part toward
zero, with no bound on the result. -/
def spec_trunc (q : ℚ) : Int := if 0 ≤ q then ⌊q⌋ else -⌊-q⌋

/-- The exact difference of `m1 * 2^e1` and `m2 * 2^e2`, written over the smaller of the
two exponents, is in binary32 form: it needs no rounding. -/
def no_rounding (m1 e1 m2 e2 : Int) : Prop :=
  (m1 * 2 ^ (e1 - min e1 e2).toNat - m2 * 2 ^ (e2 - min e1 e2).toNat).natAbs < 2 ^ 24 ∧
  -149 ≤ min e1 e2 ∧ min e1 e2 ≤ 104

/-- The scissor rectangle of a batch. -/
def scissor (clip_off : ImVec2) (pcmd : ImDrawCmd) : RenderArea :=
  { x := (pcmd.ClipRect.x.sub clip_off.x).to_int,
    y := (pcmd.ClipRect.y.sub clip_off.y).to_int,
    width := (pcmd.ClipRect.z.sub pcmd.ClipRect.x).to_int,
    height := (pcmd.ClipRect.w.sub pcmd.ClipRect.y).to_int }

/-- The draw `d` is the one the callback-free batch `pcmd` records in a loop entered
with the draw `b`, at the global offsets `gi` and `gv`. -/
def records (p : ImGuiPass) (clip_off : ImVec2) (gi gv : Nat) (b d : DrawCommand)
    (pcmd : ImDrawCmd) : Prop :=
  d.index_buffer = b.index_buffer ∧ d.vertex_buffer = b.vertex_buffer ∧
  d.shader = b.shader ∧
  d.index_count = pcmd.ElemCount ∧
  d.index_offset = pcmd.IdxOffset + gi ∧
  d.vertex_offset = pcmd.VtxOffset + gv ∧
  d.override_area = scissor clip_off pcmd ∧
  (pcmd.TextureId = 0 → d.arguments = [p.m_fonts_arg])

/-- Two draws bind the same buffers and shader. -/
def same_binding (a b : DrawCommand) : Prop :=
  a.index_buffer = b.index_buffer ∧ a.vertex_buffer = b.vertex_buffer ∧ a.shader = b.shader

/-- The batches of some lists that carry no user callback, in loop order. -/
def callback_free (lists : List ImDrawList) : List ImDrawCmd :=
  (lists.flatMap (fun l => l.CmdBuffer)).filter (fun c => c.UserCallback = 0)

/-- The sum of the index buffer sizes of some lists. -/
def idx_total (lists : List ImDrawList) : Nat := (lists.map (fun l => l.IdxBuffer.Size)).sum

/-- The sum of the vertex buffer sizes of some lists. -/
def vtx_total (lists : List ImDrawList) : Nat := (lists.map (fun l => l.VtxBuffer.Size)).sum

/-- Whether a renderer call sets the capacity of a geometry buffer: `create_geometry`
and the two-argument `update_geometry` do, an upload at an offset does not. -/
def RendererCall.declares_capacity : RendererCall → Bool
  | RendererCall.create_geometry _ => true
  | RendererCall.update_geometry _ _ => true
  | _ => false

/-- Whether a renderer call uploads data at an offset. -/
def RendererCall.is_upload : RendererCall → Bool
  | RendererCall.update_geometry_at _ _ _ => true
  | _ => false

/-! ## The deferred pipeline (`deferred.h`) -/

/-- A viewport handle. -/
abbrev ViewportHandle := Nat

/-- A scene handle. -/
abbrev SceneHandle := Nat

/-- A model handle. -/
abbrev ModelHandle := Nat

/-- Modelled from the spec: the struct `ViewportConfig`, declared in
render_pipeline_base.h, which is not among the sources: a render target and its
rectangular bounds. -/
structure ViewportConfig where
  target : Handle
  width : Nat
  height : Nat
deriving DecidableEq, Repr

/-- Modelled from the spec: the struct `SceneConfig`, declared in
render_pipeline_base.h, which is not among the sources. -/
structure SceneConfig where
  name : String
deriving DecidableEq, Repr

/-- Modelled from the spec: the class `Camera`, by the transform it carries. -/
structure Camera where
  transform : Nat
deriving DecidableEq, Repr

namespace deferred

/-- Modelled from the spec: the struct `deferred::ViewportData`, which deferred.h only
forward-declares: the viewport configuration and the camera last set. -/
structure ViewportData where
  config : ViewportConfig
  camera : Option Camera
deriving DecidableEq, Repr

/-- Modelled from the spec: the struct `deferred::SceneData`, which deferred.h only
forward-declares: the handles of the models of the scene. -/
structure SceneData where
  config : SceneConfig
  models : List ModelHandle
deriving DecidableEq, Repr

end deferred

/-- The class `DeferredPipeline`.  The three private members are those of deferred.h.
Modelled from the spec: the viewport and scene registries it inherits from
`SimplexPipeline` (render_pipeline_base.h is not among the sources), each keyed by
handle, and the next handle to issue. -/
structure DeferredPipeline where
  m_default_shader : Handle
  m_lighting_shader : Handle
  m_per_render_buffer : Handle
  viewports : List (ViewportHandle × deferred.ViewportData)
  scenes : List (SceneHandle × deferred.SceneData)
  next_handle : Nat
deriving DecidableEq, Repr

/-- The error kinds of the spec's taxonomy. -/
inductive PipelineError where
  | InvalidHandle
  | IllegalState
  | ResourceExhaustion
  | UnrecognizedInput
deriving DecidableEq, Repr

/-- The method `DeferredPipeline::remove_viewport`, deferred.h line 28: the body is `{}`. -/
def DeferredPipeline.remove_viewport (p : DeferredPipeline) (_viewport : ViewportHandle) :
    DeferredPipeline := p

/-- The method `DeferredPipeline::remove_scene`, deferred.h line 32: the body is `{}`. -/
def DeferredPipeline.remove_scene (p : DeferredPipeline) (_scene : SceneHandle) :
    DeferredPipeline := p

/-- The method `DeferredPipeline::add_model`, deferred.h line 35: the body is `{}`. -/
def DeferredPipeline.add_model (p : DeferredPipeline) (_scene : SceneHandle)
    (_model : ModelHandle) : DeferredPipeline := p

/-- Modelled from the spec: `register_viewport`, declared at deferred.h line 27 with its
body in an absent file: "allocates viewport state" under a fresh non-empty handle. -/
def DeferredPipeline.register_viewport (p : DeferredPipeline) (conf : ViewportConfig) :
    ViewportHandle × DeferredPipeline :=
  (p.next_handle + 1,
   { p with viewports := (p.next_handle + 1, { config := conf, camera := none }) :: p.viewports,
            next_handle := p.next_handle + 1 })

/-- Modelled from the spec: `transform_viewport`, declared at deferred.h line 29 with its
body in an absent file: "updates the camera transform used by subsequent render calls". -/
def DeferredPipeline.transform_viewport (p : DeferredPipeline) (handle : ViewportHandle)
    (camera : Camera) : DeferredPipeline :=
  { p with viewports := p.viewports.map (fun v =>
      if v.1 = handle then (v.1, { v.2 with camera := some camera }) else v) }

/-- Modelled from the spec: `register_scene`, declared at deferred.h line 31 with its body
in an absent file: "allocates scene state" under a fresh non-empty handle. -/
def DeferredPipeline.register_scene (p : DeferredPipeline) (conf : SceneConfig) :
    SceneHandle × DeferredPipeline :=
  (p.next_handle + 1,
   { p with scenes := (p.next_handle + 1, { config := conf, models := [] }) :: p.scenes,
            next_handle := p.next_handle + 1 })

/-- Modelled from the spec: whether a handle denotes a registered viewport, the spec's
`is_valid(handle)` on the viewport registry. -/
def DeferredPipeline.is_valid_viewport (p : DeferredPipeline) (h : ViewportHandle) : Bool :=
  p.viewports.any (fun v => v.1 = h)

/-- Modelled from the spec: whether a handle denotes a registered scene. -/
def DeferredPipeline.is_valid_scene (p : DeferredPipeline) (h : SceneHandle) : Bool :=
  p.scenes.any (fun v => v.1 = h)

/-- Modelled from the spec: whether model `m` is associated with scene `s`. -/
def DeferredPipeline.scene_has_model (p : DeferredPipeline) (s : SceneHandle)
    (m : ModelHandle) : Bool :=
  p.scenes.any (fun v => v.1 = s && v.2.models.contains m)

/-- Modelled from the spec: `render`, declared at deferred.h line 37 with its body in an
absent file.  Of its result only success or failure is kept: a handle that is not
registered is reported as `InvalidHandle`. -/
def DeferredPipeline.render (p : DeferredPipeline) (viewport : ViewportHandle)
    (scene : SceneHandle) : Except PipelineError Unit :=
  if p.is_valid_viewport viewport && p.is_valid_scene scene then Except.ok ()
  else Except.error PipelineError.InvalidHandle

/-! ## Concrete inputs -/

/-- A pass whose geometry buffers do not exist yet. -/
def fresh_pass : ImGuiPass :=
  { m_imgui_shader := 1, m_imgui_fonts_texture := 2, m_imgui_constbuffer := 3,
    m_fonts_arg := 4, m_imgui_index_buffer := c_empty_handle,
    m_imgui_vertex_buffer := c_empty_handle }

/-- A renderer that answers every `create_geometry` with the buffers 7 and 8. -/
def fixed_renderer : Renderer := { create_geometry := fun _ => ⟨7, 8⟩ }

/-- Scenario C of the spec: one list with two batches, clip rectangles `[0,0,100,100]` and
`[50,50,150,150]`, the second with the unknown texture id 9. -/
def scenario_c : ImDrawData :=
  { CmdLists :=
      [{ CmdBuffer :=
           [{ ElemCount := 6,
              ClipRect := ⟨.finite 0 0, .finite 0 0, .finite 100 0, .finite 100 0⟩,
              TextureId := 0, VtxOffset := 0, IdxOffset := 0, UserCallback := 0 },
            { ElemCount := 3, ClipRect :=
                ⟨.finite 50 0, .finite 50 0, .finite 150 0, .finite 150 0⟩, TextureId := 9,
              VtxOffset := 0, IdxOffset := 6, UserCallback := 0 }],
         IdxBuffer := { Data := 1000, Size := 9 },
         VtxBuffer := { Data := 2000, Size := 8 } }],
    DisplayPos := ⟨.finite 0 0, .finite 0 0⟩,
    DisplaySize := ⟨.finite 800 0, .finite 600 0⟩ }

/-- The render data that goes with `scenario_c`: 16-bit indices, 20-byte vertices. -/
def scenario_c_data : RenderData :=
  { total_index_count := 9, total_vertex_count := 8, viewport := ⟨0, 0, 800, 600⟩,
    index_bytesize := 2, vertec_bytesize := 20 }

/-- A deferred pipeline with nothing registered. -/
def empty_pipeline : DeferredPipeline :=
  { m_default_shader := 1, m_lighting_shader := 2, m_per_render_buffer := 3,
    viewports := [], scenes := [], next_handle := 0 }

/-- The handle and the pipeline after a scene (handle 1) and then a viewport with an
800x600 target have been registered on `empty_pipeline`. -/
def registered : ViewportHandle × DeferredPipeline :=
  (empty_pipeline.register_scene { name := "S" }).2.register_viewport
    { target := 5, width := 800, height := 600 }

/-- The pipeline `registered` after its viewport has been transformed and then removed. -/
def removed : DeferredPipeline :=
  (registered.2.transform_viewport registered.1 { transform := 11 }).remove_viewport
    registered.1

/-- Two lists: 9 indices and 8 vertices, then 6 indices and 4 vertices.  The second list
has a batch with a user callback, a batch with the reserved callback and a draw whose
clip rectangle has fractional corners, seen from the display position `(5/2, 20)`. -/
def two_lists : ImDrawData :=
  { CmdLists :=
      [{ CmdBuffer :=
           [{ ElemCount := 6,
              ClipRect := ⟨.finite 0 0, .finite 0 0, .finite 100 0, .finite 100 0⟩,
              TextureId := 0, VtxOffset := 0, IdxOffset := 0, UserCallback := 0 },
            { ElemCount := 3, ClipRect :=
                ⟨.finite 50 0, .finite 50 0, .finite 150 0, .finite 150 0⟩, TextureId := 0,
              VtxOffset := 4, IdxOffset := 6, UserCallback := 0 }],
         IdxBuffer := { Data := 1000, Size := 9 },
         VtxBuffer := { Data := 2000, Size := 8 } },
       { CmdBuffer :=
           [{ ElemCount := 0,
              ClipRect := ⟨.finite 0 0, .finite 0 0, .finite 0 0, .finite 0 0⟩,
              TextureId := 0, VtxOffset := 0, IdxOffset := 0, UserCallback := 77 },
            { ElemCount := 0,
              ClipRect := ⟨.finite 0 0, .finite 0 0, .finite 0 0, .finite 0 0⟩,
              TextureId := 0, VtxOffset := 0, IdxOffset := 0,
              UserCallback := ImDrawCallback_ResetRenderState },
            { ElemCount := 6, ClipRect :=
                ⟨.finite 1 0, .finite 41 (-1), .finite 203 (-2), .finite 80 0⟩, TextureId := 0,
              VtxOffset := 0, IdxOffset := 0, UserCallback := 0 }],
         IdxBuffer := { Data := 3000, Size := 6 },
         VtxBuffer := { Data := 4000, Size := 4 } }],
    DisplayPos := ⟨.finite 5 (-1), .finite 20 0⟩,
    DisplaySize := ⟨.finite 800 0, .finite 600 0⟩ }

/-- The render data that goes with `two_lists`: 16-bit indices, 20-byte vertices. -/
def two_lists_data : RenderData :=
  { total_index_count := 15, total_vertex_count := 12, viewport := ⟨5 / 2, 20, 800, 600⟩,
    index_bytesize := 2, vertec_bytesize := 20 }

/-- One list with two batches whose scissor needs rounding, seen from the display
position `(2^-20, 0)`: the first clip rectangle is `[-1, 0, 16777216, 10]`, of exact width
`2^24 + 1`; the second is `[100, 0, 200, 10]`, of exact left edge `100 - 2^-20`. -/
def rounding_case : ImDrawData :=
  { CmdLists :=
      [{ CmdBuffer :=
           [{ ElemCount := 6,
              ClipRect := ⟨.finite (-1) 0, .finite 0 0, .finite 16777216 0, .finite 10 0⟩,
              TextureId := 0, VtxOffset := 0, IdxOffset := 0, UserCallback := 0 },
            { ElemCount := 3,
              ClipRect := ⟨.finite 100 0, .finite 0 0, .finite 200 0, .finite 10 0⟩,
              TextureId := 0, VtxOffset := 0, IdxOffset := 6, UserCallback := 0 }],
         IdxBuffer := { Data := 1000, Size := 9 },
         VtxBuffer := { Data := 2000, Size := 8 } }],
    DisplayPos := ⟨.finite 1 (-20), .finite 0 0⟩,
    DisplaySize := ⟨.finite 800 0, .finite 600 0⟩ }

/-- A pass whose geometry buffers 7 and 8 exist already. -/
def warm_pass : ImGuiPass :=
  { m_imgui_shader := 1, m_imgui_fonts_texture := 2, m_imgui_constbuffer := 3,
    m_fonts_arg := 4, m_imgui_index_buffer := 7, m_imgui_vertex_buffer := 8 }

/-! ## The loops of `ImGuiPass::run` -/

theorem draw_batch_callback (p : ImGuiPass) (clip_off : ImVec2) (gi gv : Nat)
    (l : ImDrawList) (s : DrawState) (c : ImDrawCmd) (h : c.UserCallback ≠ 0) :
    draw_batch p clip_off gi gv l s c = { s with diag := s.diag ++ batch_diag l c } := by
  unfold draw_batch batch_diag
  simp only [h, ne_eq, not_false_eq_true, if_true]
  split <;> rfl

theorem draw_batch_draw (p : ImGuiPass) (clip_off : ImVec2) (gi gv : Nat)
    (l : ImDrawList) (s : DrawState) (c : ImDrawCmd) (h : c.UserCallback = 0) :
    ∃ d, draw_batch p clip_off gi gv l s c =
        { draw := d, cmd_list := s.cmd_list ++ [Command.draw d],
          diag := s.diag ++ batch_diag l c } ∧
      records p clip_off gi gv s.draw d c := by
  unfold draw_batch batch_diag records scissor
  by_cases ht : c.TextureId = 0
  · simp [h, ht]
  · simp [h, ht]

theorem records_of_binding {p : ImGuiPass} {clip_off : ImVec2} {gi gv : Nat}
    {b b1 d : DrawCommand} {c : ImDrawCmd} (hb : same_binding b1 b)
    (h : records p clip_off gi gv b1 d c) : records p clip_off gi gv b d c := by
  obtain ⟨h1, h2, h3, rest⟩ := h
  obtain ⟨e1, e2, e3⟩ := hb
  exact ⟨h1.trans e1, h2.trans e2, h3.trans e3, rest⟩

theorem same_binding_trans {a b c : DrawCommand} (h1 : same_binding a b)
    (h2 : same_binding b c) : same_binding a c :=
  ⟨h1.1.trans h2.1, h1.2.1.trans h2.2.1, h1.2.2.trans h2.2.2⟩

/-- The inner loop: one draw per callback-free batch, the diagnostics of every batch. -/
theorem inner_loop_spec (p : ImGuiPass) (clip_off : ImVec2) (gi gv : Nat) (l : ImDrawList) :
    ∀ (cmds : List ImDrawCmd) (s : DrawState), ∃ ds : List DrawCommand,
      (cmds.foldl (draw_batch p clip_off gi gv l) s).cmd_list
        = s.cmd_list ++ ds.map Command.draw ∧
      (cmds.foldl (draw_batch p clip_off gi gv l) s).diag
        = s.diag ++ cmds.flatMap (batch_diag l) ∧
      same_binding (cmds.foldl (draw_batch p clip_off gi gv l) s).draw s.draw ∧
      List.Forall₂ (records p clip_off gi gv s.draw) ds
        (cmds.filter (fun c => c.UserCallback = 0)) := by
  intro cmds
  induction cmds with
  | nil => intro s; exact ⟨[], by simp, by simp, ⟨rfl, rfl, rfl⟩, by simp⟩
  | cons c cs ih =>
    intro s
    by_cases hc : c.UserCallback = 0
    · obtain ⟨d, hd, hrec⟩ := draw_batch_draw p clip_off gi gv l s c hc
      obtain ⟨ds, h1, h2, h3, h4⟩ := ih (draw_batch p clip_off gi gv l s c)
      have hb : same_binding d s.draw := ⟨hrec.1, hrec.2.1, hrec.2.2.1⟩
      rw [hd] at h1 h2 h3 h4
      refine ⟨d :: ds, ?_, ?_, ?_, ?_⟩
      · simp only [List.foldl_cons, hd]; simpa using h1
      · simp only [List.foldl_cons, hd]; simpa using h2
      · simp only [List.foldl_cons, hd]
        exact same_binding_trans h3 hb
      · simp only [hc, decide_True, List.filter_cons_of_pos]
        exact List.Forall₂.cons hrec (h4.imp (fun _ _ h => records_of_binding hb h))
    · have hd := draw_batch_callback p clip_off gi gv l s c hc
      obtain ⟨ds, h1, h2, h3, h4⟩ := ih (draw_batch p clip_off gi gv l s c)
      rw [hd] at h1 h2 h3 h4
      refine ⟨ds, ?_, ?_, ?_, ?_⟩
      · simp only [List.foldl_cons, hd]; simpa using h1
      · simp only [List.foldl_cons, hd]; simpa using h2
      · simp only [List.foldl_cons, hd]; exact h3
      · simpa [hc] using h4

theorem draw_loop_append (p : ImGuiPass) (clip_off : ImVec2) :
    ∀ (pre rest : List ImDrawList) (gi gv : Nat) (s : DrawState),
      draw_loop p clip_off (pre ++ rest) gi gv s
        = draw_loop p clip_off rest (gi + idx_total pre) (gv + vtx_total pre)
            (draw_loop p clip_off pre gi gv s) := by
  intro pre
  induction pre with
  | nil => intro rest gi gv s; simp [draw_loop, idx_total, vtx_total]
  | cons l ls ih =>
    intro rest gi gv s
    simp only [List.cons_append, draw_loop, List.append_eq]
    rw [ih]
    simp [idx_total, vtx_total, Nat.add_assoc]

/-- The outer loop: the draws pair off with the callback-free batches, in order. -/
theorem draw_loop_spec (p : ImGuiPass) (clip_off : ImVec2) :
    ∀ (lists : List ImDrawList) (gi gv : Nat) (s : DrawState), ∃ ds : List DrawCommand,
      (draw_loop p clip_off lists gi gv s).cmd_list = s.cmd_list ++ ds.map Command.draw ∧
      (draw_loop p clip_off lists gi gv s).diag
        = s.diag ++ lists.flatMap (fun l => l.CmdBuffer.flatMap (batch_diag l)) ∧
      same_binding (draw_loop p clip_off lists gi gv s).draw s.draw ∧
      List.Forall₂ (fun d c => ∃ i v, records p clip_off i v s.draw d c) ds
        (callback_free lists) := by
  intro lists
  induction lists with
  | nil => intro gi gv s; exact ⟨[], by simp [draw_loop], by simp [draw_loop],
      ⟨rfl, rfl, rfl⟩, by simp [callback_free]⟩
  | cons l ls ih =>
    intro gi gv s
    obtain ⟨ds1, a1, a2, a3, a4⟩ := inner_loop_spec p clip_off gi gv l l.CmdBuffer s
    obtain ⟨ds2, b1, b2, b3, b4⟩ := ih (gi + l.IdxBuffer.Size) (gv + l.VtxBuffer.Size)
      (l.CmdBuffer.foldl (draw_batch p clip_off gi gv l) s)
    refine ⟨ds1 ++ ds2, ?_, ?_, ?_, ?_⟩
    · simp only [draw_loop, b1, a1, List.map_append, List.append_assoc]
    · simp only [draw_loop, b2, a2, List.flatMap_cons, List.append_assoc]
    · simp only [draw_loop]; exact same_binding_trans b3 a3
    · have : callback_free (l :: ls)
          = l.CmdBuffer.filter (fun c => c.UserCallback = 0) ++ callback_free ls := by
        simp [callback_free]
      rw [this]
      exact List.rel_append (a4.imp (fun _ _ h => ⟨gi, gv, h⟩))
        (b4.imp (fun _ _ h => by
          obtain ⟨i, v, h⟩ := h
          exact ⟨i, v, records_of_binding a3 h⟩))

/-- The draws of one list, between those of the lists before and after it. -/
theorem draw_loop_split (p : ImGuiPass) (clip_off : ImVec2) (pre : List ImDrawList)
    (l : ImDrawList) (post : List ImDrawList) (s : DrawState) :
    ∃ A B C : List DrawCommand,
      (draw_loop p clip_off (pre ++ l :: post) 0 0 s).cmd_list
        = s.cmd_list ++ (A ++ B ++ C).map Command.draw ∧
      A.length = (callback_free pre).length ∧
      C.length = (callback_free post).length ∧
      List.Forall₂ (records p clip_off (idx_total pre) (vtx_total pre) s.draw) B
        (l.CmdBuffer.filter (fun c => c.UserCallback = 0)) := by
  obtain ⟨A, a1, _, a3, a4⟩ := draw_loop_spec p clip_off pre 0 0 s
  obtain ⟨B, b1, _, b3, b4⟩ := inner_loop_spec p clip_off (idx_total pre) (vtx_total pre) l
    l.CmdBuffer (draw_loop p clip_off pre 0 0 s)
  obtain ⟨C, c1, _, _, c4⟩ := draw_loop_spec p clip_off post
    (idx_total pre + l.IdxBuffer.Size) (vtx_total pre + l.VtxBuffer.Size)
    (l.CmdBuffer.foldl (draw_batch p clip_off (idx_total pre) (vtx_total pre) l)
      (draw_loop p clip_off pre 0 0 s))
  refine ⟨A, B, C, ?_, a4.length_eq, c4.length_eq, b4.imp (fun _ _ h => records_of_binding a3 h)⟩
  rw [draw_loop_append]
  simp only [Nat.zero_add, draw_loop, c1, b1, a1, List.map_append, List.append_assoc]

theorem upload_loop_append (p : ImGuiPass) (data : RenderData) :
    ∀ (pre rest : List ImDrawList) (ic vc : Nat),
      upload_loop p data (pre ++ rest) ic vc
        = upload_loop p data pre ic vc
          ++ upload_loop p data rest (ic + idx_total pre) (vc + vtx_total pre) := by
  intro pre
  induction pre with
  | nil => intro rest ic vc; simp [upload_loop, idx_total, vtx_total]
  | cons l ls ih =>
    intro rest ic vc
    simp only [List.cons_append, upload_loop, List.append_eq]
    rw [ih]
    simp [idx_total, vtx_total, Nat.add_assoc]

theorem upload_loop_length (p : ImGuiPass) (data : RenderData) :
    ∀ (lists : List ImDrawList) (ic vc : Nat),
      (upload_loop p data lists ic vc).length = 2 * lists.length := by
  intro lists
  induction lists with
  | nil => intro ic vc; simp [upload_loop]
  | cons l ls ih => intro ic vc; simp [upload_loop, ih]; omega

/-- The whole command list of a run: transition, pass begin, the draws, pass end. -/
theorem run_cmd_list (p : ImGuiPass) (r : Renderer) (data : RenderData)
    (draw_data : ImDrawData) (params : Parameters) :
    ∃ draws : List DrawCommand,
      (p.run r data draw_data params).cmd_list
        = [Command.transition params.render_target ResourceState.RenderTarget,
           Command.begin_render_pass (raster draw_data params)]
          ++ draws.map Command.draw ++ [Command.end_render_pass] ∧
      List.Forall₂ (fun d c => ∃ i v, records (update_buffer_size p r data).1
          draw_data.DisplayPos i v
          (draw_start (update_buffer_size p r data).1 draw_data params).draw d c)
        draws (callback_free draw_data.CmdLists) := by
  obtain ⟨ds, h1, _, _, h4⟩ := draw_loop_spec (update_buffer_size p r data).1
    draw_data.DisplayPos draw_data.CmdLists 0 0
    (draw_start (update_buffer_size p r data).1 draw_data params)
  refine ⟨ds, ?_, h4⟩
  simp only [ImGuiPass.run, h1]
  simp [draw_start]

/-- A property of every right-hand element can be added to a pairing. -/
theorem forall₂_and_right_mem {α β : Type} {R : α → β → Prop} {Q : β → Prop}
    {as : List α} {bs : List β} (h : List.Forall₂ R as bs) (hq : ∀ b ∈ bs, Q b) :
    List.Forall₂ (fun a b => Q b ∧ R a b) as bs := by
  induction h with
  | nil => exact List.Forall₂.nil
  | cons hab _ ih =>
    exact List.Forall₂.cons ⟨hq _ (List.mem_cons_self _ _), hab⟩
      (ih (fun b hb => hq b (List.mem_cons_of_mem _ hb)))

/-- The renderer calls of a run: sizing, the constant buffer, the uploads, prepare. -/
theorem run_renderer (p : ImGuiPass) (r : Renderer) (data : RenderData)
    (draw_data : ImDrawData) (params : Parameters) :
    (p.run r data draw_data params).renderer
      = (update_buffer_size p r data).2
        ++ [RendererCall.update_const_buffer
              (update_buffer_size p r data).1.m_imgui_constbuffer 0 0 (mvp data.viewport)]
        ++ upload_loop (update_buffer_size p r data).1 data draw_data.CmdLists 0 0
        ++ [RendererCall.prepare] := rfl

/-- The diagnostics of a run, batch by batch. -/
theorem run_diag (p : ImGuiPass) (r : Renderer) (data : RenderData)
    (draw_data : ImDrawData) (params : Parameters) :
    (p.run r data draw_data params).diag
      = draw_data.CmdLists.flatMap (fun l => l.CmdBuffer.flatMap (batch_diag l)) := by
  obtain ⟨ds, _, h2, _, _⟩ := draw_loop_spec (update_buffer_size p r data).1
    draw_data.DisplayPos draw_data.CmdLists 0 0
    (draw_start (update_buffer_size p r data).1 draw_data params)
  simp only [ImGuiPass.run, h2]
  simp [draw_start]

theorem upload_loop_no_capacity (p : ImGuiPass) (data : RenderData) :
    ∀ (lists : List ImDrawList) (ic vc : Nat),
      (upload_loop p data lists ic vc).filter RendererCall.declares_capacity = [] := by
  intro lists
  induction lists with
  | nil => intro ic vc; simp [upload_loop]
  | cons l ls ih =>
    intro ic vc
    simp [upload_loop, RendererCall.declares_capacity, ih]

/-- The uploads list by list, each with the offsets it is made at; every offset range
stays inside the sum of the sizes. -/
theorem upload_loop_offsets (p : ImGuiPass) (data : RenderData) :
    ∀ (lists : List ImDrawList) (ic vc : Nat), ∃ offs : List (Nat × Nat),
      offs.length = lists.length ∧
      upload_loop p data lists ic vc
        = (lists.zip offs).flatMap (fun x =>
            [RendererCall.update_geometry_at p.m_imgui_index_buffer
               { addr := x.1.IdxBuffer.Data, element_count := x.1.IdxBuffer.Size,
                 element_bytesize := data.index_bytesize } x.2.1,
             RendererCall.update_geometry_at p.m_imgui_vertex_buffer
               { addr := x.1.VtxBuffer.Data, element_count := x.1.VtxBuffer.Size,
                 element_bytesize := data.vertec_bytesize } x.2.2]) ∧
      ∀ x ∈ lists.zip offs,
        (ic ≤ x.2.1 ∧ x.2.1 + x.1.IdxBuffer.Size ≤ ic + idx_total lists) ∧
        (vc ≤ x.2.2 ∧ x.2.2 + x.1.VtxBuffer.Size ≤ vc + vtx_total lists) := by
  intro lists
  induction lists with
  | nil => intro ic vc; exact ⟨[], rfl, by simp [upload_loop], by simp⟩
  | cons l ls ih =>
    intro ic vc
    obtain ⟨offs, h1, h2, h3⟩ := ih (ic + l.IdxBuffer.Size) (vc + l.VtxBuffer.Size)
    refine ⟨(ic, vc) :: offs, by simp [h1], ?_, ?_⟩
    · simp only [upload_loop, h2, List.zip_cons_cons, List.flatMap_cons]
      rfl
    · intro x hx
      have e1 : idx_total (l :: ls) = l.IdxBuffer.Size + idx_total ls := by simp [idx_total]
      have e2 : vtx_total (l :: ls) = l.VtxBuffer.Size + vtx_total ls := by simp [vtx_total]
      rw [List.zip_cons_cons, List.mem_cons] at hx
      rcases hx with rfl | hx
      · simp only [e1, e2]
        omega
      · have := h3 x hx
        simp only [e1, e2]
        omega

/-- Sizing the buffers a second time changes no member. -/
theorem update_buffer_size_idem (p : ImGuiPass) (r : Renderer) (data : RenderData) :
    (update_buffer_size (update_buffer_size p r data).1 r data).1
      = (update_buffer_size p r data).1 := by
  by_cases h : p.m_imgui_vertex_buffer = c_empty_handle
  · by_cases h2 : (r.create_geometry
        { index := LowLevelGeometryData.size_only data.total_index_count data.index_bytesize,
          vertex :=
            LowLevelGeometryData.size_only data.total_vertex_count data.vertec_bytesize,
          flags := { dynamic := true, include_blas := false } }).vertex_buffer
        = c_empty_handle
    · simp [update_buffer_size, h, h2]
    · simp [update_buffer_size, h, h2]
  · simp [update_buffer_size, h]

theorem run_pass (p : ImGuiPass) (r : Renderer) (data : RenderData)
    (draw_data : ImDrawData) (params : Parameters) :
    (p.run r data draw_data params).pass = (update_buffer_size p r data).1 := rfl

/-! ## Binary32 arithmetic against exact arithmetic -/

theorem bit_length_loop_le :
    ∀ (fuel n k : Nat), n < 2 ^ k → bit_length_loop fuel n ≤ k := by
  intro fuel
  induction fuel with
  | zero => intro n k _; simp [bit_length_loop]
  | succ f ih =>
    intro n k h
    unfold bit_length_loop
    by_cases hn : n = 0
    · simp [hn]
    · simp only [hn, if_false]
      cases k with
      | zero => simp at h; exact absurd h hn
      | succ k =>
        have h2 : n / 2 < 2 ^ k := by
          rw [Nat.pow_succ] at h
          omega
        have h3 := ih (n / 2) k h2
        omega

theorem bit_length_le (n k : Nat) (h : n < 2 ^ k) : bit_length n ≤ k :=
  bit_length_loop_le n n k h

/-- A value already in binary32 form is not changed by rounding. -/
theorem round_exact (m e : Int) (hm : m.natAbs < 2 ^ 24) (he : -149 ≤ e) (he2 : e ≤ 104) :
    Binary32.round m e = Binary32.finite m e := by
  have hb := bit_length_le m.natAbs 24 hm
  unfold Binary32.round
  simp only
  have hq : max (e + (bit_length m.natAbs : Int) - 1 - 23) (-149) ≤ e := by
    apply max_le <;> omega
  rw [if_pos hq]
  have hp : ¬ (128 : Int) ≤ e + (bit_length m.natAbs : Int) - 1 := by omega
  rw [if_neg hp]

/-- The exact difference of two finite values, over the smaller exponent. -/
theorem dyadic_sub (m1 e1 m2 e2 : Int) :
    dyadic m1 e1 - dyadic m2 e2
      = dyadic (m1 * 2 ^ (e1 - min e1 e2).toNat - m2 * 2 ^ (e2 - min e1 e2).toNat)
          (min e1 e2) := by
  have h2 : (2 : ℚ) ≠ 0 := by norm_num
  have key : ∀ a e : Int, e ≤ a →
      ((2 : ℚ) ^ (a - e).toNat) * (2 : ℚ) ^ e = (2 : ℚ) ^ a := by
    intro a e h
    have hc : ((a - e).toNat : Int) = a - e := Int.toNat_of_nonneg (by omega)
    rw [← zpow_natCast, hc, ← zpow_add₀ h2]
    congr 1
    ring
  unfold dyadic
  push_cast
  rw [sub_mul, mul_assoc, mul_assoc, key e1 _ (min_le_left _ _), key e2 _ (min_le_right _ _)]

theorem spec_trunc_intCast (z : Int) : spec_trunc (z : ℚ) = z := by
  unfold spec_trunc
  split
  · exact Int.floor_intCast z
  · rw [← Int.cast_neg, Int.floor_intCast]; ring

/-- The truncation of an exact `m * 2^e`, in integer arithmetic. -/
theorem spec_trunc_dyadic (m e : Int) :
    spec_trunc (dyadic m e)
      = if 0 ≤ e then m * 2 ^ e.toNat else Int.tdiv m (2 ^ (-e).toNat) := by
  by_cases he : 0 ≤ e
  · rw [if_pos he]
    have hd : dyadic m e = ((m * 2 ^ e.toNat : Int) : ℚ) := by
      unfold dyadic
      push_cast
      rw [← zpow_natCast, Int.toNat_of_nonneg he]
    rw [hd, spec_trunc_intCast]
  · rw [if_neg he]
    have hk : (((-e).toNat : Nat) : Int) = -e := Int.toNat_of_nonneg (by omega)
    have hd : dyadic m e = (m : ℚ) / (((2 ^ (-e).toNat : Nat)) : ℚ) := by
      unfold dyadic
      push_cast
      rw [← zpow_natCast, hk, zpow_neg, div_eq_mul_inv, inv_inv]
    have hpos : (0 : ℚ) < ((2 ^ (-e).toNat : Nat) : ℚ) := by positivity
    have hcast : ((2 : Int) ^ (-e).toNat) = (((2 ^ (-e).toNat : Nat)) : Int) := by
      push_cast; rfl
    rw [hd, hcast]
    unfold spec_trunc
    by_cases hm : 0 ≤ m
    · have hq : (0 : ℚ) ≤ (m : ℚ) / ((2 ^ (-e).toNat : Nat) : ℚ) :=
        div_nonneg (by exact_mod_cast hm) hpos.le
      rw [if_pos hq, Rat.floor_intCast_div_natCast, Int.tdiv_eq_ediv hm (by positivity)]
    · have hm2 : m < 0 := by omega
      have hq : ¬ (0 : ℚ) ≤ (m : ℚ) / ((2 ^ (-e).toNat : Nat) : ℚ) := by
        rw [not_le]
        exact div_neg_of_neg_of_pos (by exact_mod_cast hm2) hpos
      rw [if_neg hq, ← neg_div, ← Int.cast_neg, Rat.floor_intCast_div_natCast]
      have h1 : m.tdiv ((2 ^ (-e).toNat : Nat) : Int)
          = -((-m).tdiv ((2 ^ (-e).toNat : Nat) : Int)) := by
        rw [Int.neg_tdiv]; ring
      rw [h1, Int.tdiv_eq_ediv (by omega) (by positivity)]

/-- A float difference that needs no rounding, converted to `int`, is the truncation of
the exact difference when that fits a 32-bit `int`. -/
theorem sub_to_int_of_no_rounding (m1 e1 m2 e2 : Int) (h : no_rounding m1 e1 m2 e2) :
    ((Binary32.finite m1 e1).sub (Binary32.finite m2 e2)).to_int
      = if -2 ^ 31 ≤ spec_trunc (dyadic m1 e1 - dyadic m2 e2) ∧
            spec_trunc (dyadic m1 e1 - dyadic m2 e2) ≤ 2 ^ 31 - 1
        then spec_trunc (dyadic m1 e1 - dyadic m2 e2) else -2 ^ 31 := by
  obtain ⟨hm, he, he2⟩ := h
  rw [dyadic_sub, spec_trunc_dyadic]
  simp only [Binary32.sub, round_exact _ _ hm he he2, Binary32.to_int]

/-! ## The claims -/

/-- C1, evaluated on scenario C of the spec.  The second batch has an unknown texture id:
the run reports one warning for it and still records a draw for it, with the shader
arguments left over from the first batch, so the pass holds two draws and not one. -/
theorem scenario_c_unknown_texture_is_drawn :
    (fresh_pass.run fixed_renderer scenario_c_data scenario_c { render_target := 42 }).cmd_list
      = [Command.transition 42 ResourceState.RenderTarget,
         Command.begin_render_pass
           { render_targets := [42], depth_stencil := 0, clear_rt := false,
             clear_ds := false,
             viewport := { width := .finite 800 0, height := .finite 600 0 }, area := {} },
         Command.draw
           { index_buffer := 7, vertex_buffer := 8, shader := 1, arguments := [4],
             index_count := 6, index_offset := 0, vertex_offset := 0,
             override_area := { x := 0, y := 0, width := 100, height := 100 } },
         Command.draw
           { index_buffer := 7, vertex_buffer := 8, shader := 1, arguments := [4],
             index_count := 3, index_offset := 6, vertex_offset := 0,
             override_area := { x := 50, y := 50, width := 100, height := 100 } },
         Command.end_render_pass] ∧
    (fresh_pass.run fixed_renderer scenario_c_data scenario_c { render_target := 42 }).diag
      = [Diag.warning "Unknow texture"] := by
  constructor
  · decide
  · decide

/-- C2, refuted as stated: after register_viewport, transform_viewport and
remove_viewport(h), the handle h is still registered and render(h, scene) succeeds; it
does not fail with InvalidHandle. -/
theorem render_after_remove_viewport_succeeds :
    removed.is_valid_viewport registered.1 = true ∧
    removed.render registered.1 1 = Except.ok () ∧
    removed.render registered.1 1 ≠ Except.error PipelineError.InvalidHandle := by
  have h : removed.render registered.1 1 = Except.ok () := rfl
  refine ⟨by decide, h, ?_⟩
  rw [h]
  exact fun e => nomatch e

/-- C2 as amended: remove_viewport has an empty body and leaves the pipeline as it was.
After register_viewport, transform_viewport and remove_viewport(h) the pipeline is the
one before the removal, h is still a registered viewport, and render(h, scene) with a
registered scene succeeds as it did before the removal. -/
theorem remove_viewport_keeps_viewport (p : DeferredPipeline) (conf : ViewportConfig)
    (camera : Camera) (scene : SceneHandle) (hs : p.is_valid_scene scene = true) :
    ((p.register_viewport conf).2.transform_viewport (p.register_viewport conf).1
        camera).remove_viewport (p.register_viewport conf).1
      = (p.register_viewport conf).2.transform_viewport (p.register_viewport conf).1 camera ∧
    (((p.register_viewport conf).2.transform_viewport (p.register_viewport conf).1
        camera).remove_viewport (p.register_viewport conf).1).is_valid_viewport
      (p.register_viewport conf).1 = true ∧
    (((p.register_viewport conf).2.transform_viewport (p.register_viewport conf).1
        camera).remove_viewport (p.register_viewport conf).1).render
      (p.register_viewport conf).1 scene = Except.ok () := by
  have hv : ((p.register_viewport conf).2.transform_viewport (p.register_viewport conf).1
      camera).is_valid_viewport (p.register_viewport conf).1 = true := by
    simp [DeferredPipeline.register_viewport, DeferredPipeline.transform_viewport,
      DeferredPipeline.is_valid_viewport]
  have hsc : ((p.register_viewport conf).2.transform_viewport (p.register_viewport conf).1
      camera).is_valid_scene scene = true := by
    simpa [DeferredPipeline.register_viewport, DeferredPipeline.transform_viewport,
      DeferredPipeline.is_valid_scene] using hs
  refine ⟨rfl, hv, ?_⟩
  simp only [DeferredPipeline.remove_viewport, DeferredPipeline.render, hv, hsc,
    Bool.and_self, if_true]

/-- The amended C2 at a concrete pipeline: one registered scene, then the sequence. -/
theorem remove_viewport_keeps_viewport_witness :
    (empty_pipeline.register_scene { name := "S" }).2.is_valid_scene 1 = true ∧
    removed.render registered.1 1 = Except.ok () :=
  ⟨by decide,
   (remove_viewport_keeps_viewport (empty_pipeline.register_scene { name := "S" }).2
      { target := 5, width := 800, height := 600 } { transform := 11 } 1 (by decide)).2.2⟩

/-- C3: the command list of a run is one transition of the render target to the
RenderTarget state, one begin_render_pass on that target, then draws only, then one
end_render_pass; there are as many draws as callback-free batches, hence none when
there is no batch. -/
theorem run_records_one_pass (p : ImGuiPass) (r : Renderer) (data : RenderData)
    (draw_data : ImDrawData) (params : Parameters) :
    ∃ draws : List DrawCommand,
      (p.run r data draw_data params).cmd_list
        = [Command.transition params.render_target ResourceState.RenderTarget,
           Command.begin_render_pass (raster draw_data params)]
          ++ draws.map Command.draw ++ [Command.end_render_pass] ∧
      (raster draw_data params).render_targets = [params.render_target] ∧
      draws.length = (callback_free draw_data.CmdLists).length ∧
      draws.length ≤ (draw_data.CmdLists.flatMap (fun l => l.CmdBuffer)).length := by
  obtain ⟨ds, h1, h2⟩ := run_cmd_list p r data draw_data params
  refine ⟨ds, h1, rfl, h2.length_eq, ?_⟩
  rw [h2.length_eq]
  exact List.length_filter_le _ _

/-- C4: in a run over the lists `pre ++ l :: post`, the index and vertex data of `l` are
uploaded at the element offsets `idx_total pre` and `vtx_total pre`, the sums of the
buffer sizes of the lists before `l`; and every draw recorded for a batch of `l` has
index_count = ElemCount, index_offset = IdxOffset + that index sum and
vertex_offset = VtxOffset + that vertex sum, so a batch that lies inside its list's index
data reads inside the region where that data was uploaded. -/
theorem draws_read_where_their_list_was_uploaded (p : ImGuiPass) (r : Renderer)
    (data : RenderData) (draw_data : ImDrawData) (params : Parameters)
    (pre : List ImDrawList) (l : ImDrawList) (post : List ImDrawList) :
    ∃ (U V : List RendererCall) (A B C : List DrawCommand),
      (p.run r data { draw_data with CmdLists := pre ++ l :: post } params).renderer
        = (update_buffer_size p r data).2
          ++ [RendererCall.update_const_buffer
                (update_buffer_size p r data).1.m_imgui_constbuffer 0 0 (mvp data.viewport)]
          ++ U
          ++ [RendererCall.update_geometry_at
                (update_buffer_size p r data).1.m_imgui_index_buffer
                { addr := l.IdxBuffer.Data, element_count := l.IdxBuffer.Size,
                  element_bytesize := data.index_bytesize } (idx_total pre),
              RendererCall.update_geometry_at
                (update_buffer_size p r data).1.m_imgui_vertex_buffer
                { addr := l.VtxBuffer.Data, element_count := l.VtxBuffer.Size,
                  element_bytesize := data.vertec_bytesize } (vtx_total pre)]
          ++ V ++ [RendererCall.prepare] ∧
      U.length = 2 * pre.length ∧ V.length = 2 * post.length ∧
      (p.run r data { draw_data with CmdLists := pre ++ l :: post } params).cmd_list
        = [Command.transition params.render_target ResourceState.RenderTarget,
           Command.begin_render_pass (raster draw_data params)]
          ++ (A ++ B ++ C).map Command.draw ++ [Command.end_render_pass] ∧
      A.length = (callback_free pre).length ∧ C.length = (callback_free post).length ∧
      List.Forall₂ (fun d c =>
          d.index_buffer = (update_buffer_size p r data).1.m_imgui_index_buffer ∧
          d.vertex_buffer = (update_buffer_size p r data).1.m_imgui_vertex_buffer ∧
          d.index_count = c.ElemCount ∧
          d.index_offset = c.IdxOffset + idx_total pre ∧
          d.vertex_offset = c.VtxOffset + vtx_total pre ∧
          idx_total pre ≤ d.index_offset ∧
          (c.IdxOffset + c.ElemCount ≤ l.IdxBuffer.Size →
            d.index_offset + d.index_count ≤ idx_total pre + l.IdxBuffer.Size))
        B (l.CmdBuffer.filter (fun c => c.UserCallback = 0)) := by
  obtain ⟨A, B, C, h1, hA, hC, hB⟩ := draw_loop_split (update_buffer_size p r data).1
    draw_data.DisplayPos pre l post
    (draw_start (update_buffer_size p r data).1 draw_data params)
  refine ⟨upload_loop (update_buffer_size p r data).1 data pre 0 0,
    upload_loop (update_buffer_size p r data).1 data post
      (idx_total pre + l.IdxBuffer.Size) (vtx_total pre + l.VtxBuffer.Size),
    A, B, C, ?_, upload_loop_length _ _ _ _ _, upload_loop_length _ _ _ _ _, ?_, hA, hC, ?_⟩
  · rw [run_renderer]
    simp only [upload_loop_append, upload_loop, Nat.zero_add, List.append_assoc,
      List.cons_append, List.nil_append]
  · have e : (p.run r data { draw_data with CmdLists := pre ++ l :: post } params).cmd_list
        = (draw_loop (update_buffer_size p r data).1 draw_data.DisplayPos (pre ++ l :: post)
            0 0 (draw_start (update_buffer_size p r data).1 draw_data params)).cmd_list
          ++ [Command.end_render_pass] := rfl
    rw [e, h1]
    simp [draw_start]
  · refine hB.imp (fun d c h => ?_)
    obtain ⟨h1, h2, _, h4, h5, h6, _, _⟩ := h
    refine ⟨h1, h2, h4, h5, h6, ?_, ?_⟩
    · omega
    · intro hle; omega

/-- C5, refuted as stated: with 2-byte indices and 20-byte vertices, the second list of
`two_lists` (9 indices and 8 vertices before it) is uploaded with the offset arguments 9
and 8, the element counts, and not with the byte offsets 18 and 160. -/
theorem upload_offset_is_not_byte_offset :
    (warm_pass.run fixed_renderer two_lists_data two_lists { render_target := 42 }).renderer.filter
        RendererCall.is_upload
      = [RendererCall.update_geometry_at 7
           { addr := 1000, element_count := 9, element_bytesize := 2 } 0,
         RendererCall.update_geometry_at 8
           { addr := 2000, element_count := 8, element_bytesize := 20 } 0,
         RendererCall.update_geometry_at 7
           { addr := 3000, element_count := 6, element_bytesize := 2 } 9,
         RendererCall.update_geometry_at 8
           { addr := 4000, element_count := 4, element_bytesize := 20 } 8] ∧
    RendererCall.update_geometry_at 7
        { addr := 3000, element_count := 6, element_bytesize := 2 } (2 * 9)
      ∉ (warm_pass.run fixed_renderer two_lists_data two_lists
          { render_target := 42 }).renderer ∧
    RendererCall.update_geometry_at 8
        { addr := 4000, element_count := 4, element_bytesize := 20 } (20 * 8)
      ∉ (warm_pass.run fixed_renderer two_lists_data two_lists
          { render_target := 42 }).renderer := by
  refine ⟨?_, ?_, ?_⟩ <;>
    simp [run_renderer, update_buffer_size, upload_loop, two_lists, two_lists_data,
      warm_pass, c_empty_handle, RendererCall.is_upload]

/-- C5 as amended: in a run over the lists `pre ++ l :: post`, the offset argument of
the upload of `l` is the element offset of its data, the total element count of the
lists before it, for the index and for the vertex buffer alike; the element size appears
in the data descriptor only. -/
theorem upload_offset_is_element_offset (p : ImGuiPass) (r : Renderer)
    (data : RenderData) (draw_data : ImDrawData) (params : Parameters)
    (pre : List ImDrawList) (l : ImDrawList) (post : List ImDrawList) :
    (p.run r data { draw_data with CmdLists := pre ++ l :: post } params).renderer
      = (update_buffer_size p r data).2
        ++ [RendererCall.update_const_buffer
              (update_buffer_size p r data).1.m_imgui_constbuffer 0 0 (mvp data.viewport)]
        ++ upload_loop (update_buffer_size p r data).1 data pre 0 0
        ++ [RendererCall.update_geometry_at
              (update_buffer_size p r data).1.m_imgui_index_buffer
              { addr := l.IdxBuffer.Data, element_count := l.IdxBuffer.Size,
                element_bytesize := data.index_bytesize } (idx_total pre),
            RendererCall.update_geometry_at
              (update_buffer_size p r data).1.m_imgui_vertex_buffer
              { addr := l.VtxBuffer.Data, element_count := l.VtxBuffer.Size,
                element_bytesize := data.vertec_bytesize } (vtx_total pre)]
        ++ upload_loop (update_buffer_size p r data).1 data post
            (idx_total pre + l.IdxBuffer.Size) (vtx_total pre + l.VtxBuffer.Size)
        ++ [RendererCall.prepare] ∧
    (upload_loop (update_buffer_size p r data).1 data pre 0 0).length = 2 * pre.length := by
  refine ⟨?_, upload_loop_length _ _ _ _ _⟩
  rw [run_renderer]
  simp only [upload_loop_append, upload_loop, Nat.zero_add, List.append_assoc,
    List.cons_append, List.nil_append]

/-- C6, refuted as stated: in `rounding_case` the first batch has the exact width
`16777216 - (-1) = 16777217` and is recorded with the width 16777216, and the second has
the exact left edge `100 - 2^-20`, of integer part 99, and is recorded with x = 100. -/
theorem scissor_is_not_exact_trunc :
    (warm_pass.run fixed_renderer scenario_c_data rounding_case
        { render_target := 42 }).cmd_list
      = [Command.transition 42 ResourceState.RenderTarget,
         Command.begin_render_pass
           { render_targets := [42], depth_stencil := 0, clear_rt := false,
             clear_ds := false,
             viewport := { width := .finite 800 0, height := .finite 600 0 }, area := {} },
         Command.draw
           { index_buffer := 7, vertex_buffer := 8, shader := 1, arguments := [4],
             index_count := 6, index_offset := 0, vertex_offset := 0,
             override_area := { x := -1, y := 0, width := 16777216, height := 10 } },
         Command.draw
           { index_buffer := 7, vertex_buffer := 8, shader := 1, arguments := [4],
             index_count := 3, index_offset := 6, vertex_offset := 0,
             override_area := { x := 100, y := 0, width := 100, height := 10 } },
         Command.end_render_pass] ∧
    spec_trunc (dyadic 16777216 0 - dyadic (-1) 0) = 16777217 ∧
    spec_trunc (dyadic 100 0 - dyadic 1 (-20)) = 99 := by
  refine ⟨by decide, ?_, ?_⟩
  · rw [dyadic_sub, spec_trunc_dyadic]; decide
  · rw [dyadic_sub, spec_trunc_dyadic]; decide

/-- C6 as amended: the draws of a run pair off with its callback-free batches, and the
draw of a batch with clip rectangle (x, y, z, w), under the display position (ox, oy),
has the scissor override_area = (int(x - ox), int(y - oy), int(z - x), int(w - y)), each
difference being the binary32 difference and `int` its conversion to a 32-bit int; the
display position enters the origin only.  A difference that needs no rounding and whose
integer part fits a 32-bit int gives `trunc` of the exact difference. -/
theorem scissor_is_rounded_difference (p : ImGuiPass) (r : Renderer) (data : RenderData)
    (draw_data : ImDrawData) (params : Parameters) :
    (∃ draws : List DrawCommand,
      (p.run r data draw_data params).cmd_list
        = [Command.transition params.render_target ResourceState.RenderTarget,
           Command.begin_render_pass (raster draw_data params)]
          ++ draws.map Command.draw ++ [Command.end_render_pass] ∧
      List.Forall₂ (fun d c =>
          d.override_area =
            { x := (c.ClipRect.x.sub draw_data.DisplayPos.x).to_int,
              y := (c.ClipRect.y.sub draw_data.DisplayPos.y).to_int,
              width := (c.ClipRect.z.sub c.ClipRect.x).to_int,
              height := (c.ClipRect.w.sub c.ClipRect.y).to_int })
        draws (callback_free draw_data.CmdLists)) ∧
    (∀ m1 e1 m2 e2 : Int, no_rounding m1 e1 m2 e2 →
      ((Binary32.finite m1 e1).sub (Binary32.finite m2 e2)).to_int
        = if -2 ^ 31 ≤ spec_trunc (dyadic m1 e1 - dyadic m2 e2) ∧
              spec_trunc (dyadic m1 e1 - dyadic m2 e2) ≤ 2 ^ 31 - 1
          then spec_trunc (dyadic m1 e1 - dyadic m2 e2) else -2 ^ 31) := by
  refine ⟨?_, sub_to_int_of_no_rounding⟩
  obtain ⟨ds, h1, h2⟩ := run_cmd_list p r data draw_data params
  refine ⟨ds, h1, h2.imp (fun d c h => ?_)⟩
  obtain ⟨i, v, h⟩ := h
  exact h.2.2.2.2.2.2.1

/-- The amended C6 on the last batch of `two_lists`: the width `203/4 - 1` needs no
rounding, and the recorded width is the integer part of the exact difference. -/
theorem scissor_is_rounded_difference_witness :
    no_rounding 203 (-2) 1 0 ∧
    ((Binary32.finite 203 (-2)).sub (Binary32.finite 1 0)).to_int
      = (if -2 ^ 31 ≤ spec_trunc (dyadic 203 (-2) - dyadic 1 0) ∧
            spec_trunc (dyadic 203 (-2) - dyadic 1 0) ≤ 2 ^ 31 - 1
        then spec_trunc (dyadic 203 (-2) - dyadic 1 0) else -2 ^ 31) ∧
    ((Binary32.finite 203 (-2)).sub (Binary32.finite 1 0)).to_int = 49 := by
  have h : no_rounding 203 (-2) 1 0 := by
    unfold no_rounding
    decide
  exact ⟨h, (scissor_is_rounded_difference warm_pass fixed_renderer two_lists_data two_lists
    { render_target := 42 }).2 203 (-2) 1 0 h, by decide⟩

/-- The scissor rectangles of `two_lists`, seen from the display position `(5/2, 20)`:
the conversion to `int` truncates toward zero. -/
theorem two_lists_scissors :
    (callback_free two_lists.CmdLists).map (scissor two_lists.DisplayPos)
      = [{ x := -2, y := -20, width := 100, height := 100 },
         { x := 47, y := 30, width := 100, height := 100 },
         { x := -1, y := 0, width := 49, height := 59 }] := by
  decide

/-- The conversion of a value that does not fit a 32-bit int, of an infinity and of a
NaN, and a subtraction that overflows to an infinity. -/
theorem to_int_out_of_range :
    ((Binary32.finite 3000000000 0).sub (Binary32.finite 0 0)).to_int = -2147483648 ∧
    (Binary32.inf false).to_int = -2147483648 ∧
    Binary32.nan.to_int = -2147483648 ∧
    (Binary32.finite (2 ^ 24 - 1) 104).sub (Binary32.finite (-1) 103) = Binary32.inf false := by
  decide

/-- C7: the diagnostic channel of a run holds, batch by batch and in loop order, one
warning and no invocation for a batch whose callback is the reserved
ImDrawCallback_ResetRenderState, and one invocation with its command list and the batch
itself for a batch with any other callback; and the draws of the run pair off with the
batches that carry no callback, so a batch with a callback records no draw. -/
theorem callbacks_are_invoked_or_ignored (p : ImGuiPass) (r : Renderer) (data : RenderData)
    (draw_data : ImDrawData) (params : Parameters) :
    (p.run r data draw_data params).diag
      = draw_data.CmdLists.flatMap (fun l => l.CmdBuffer.flatMap (fun c =>
          if c.UserCallback ≠ 0 then
            if c.UserCallback = ImDrawCallback_ResetRenderState then
              [Diag.warning "Ignored callback"]
            else [Diag.user_callback c.UserCallback l c]
          else if c.TextureId = 0 then [] else [Diag.warning "Unknow texture"])) ∧
    ∃ draws : List DrawCommand,
      (p.run r data draw_data params).cmd_list
        = [Command.transition params.render_target ResourceState.RenderTarget,
           Command.begin_render_pass (raster draw_data params)]
          ++ draws.map Command.draw ++ [Command.end_render_pass] ∧
      List.Forall₂ (fun d c => c.UserCallback = 0 ∧ d.index_count = c.ElemCount ∧
          d.override_area = scissor draw_data.DisplayPos c)
        draws
        ((draw_data.CmdLists.flatMap (fun l => l.CmdBuffer)).filter
          (fun c => c.UserCallback = 0)) := by
  refine ⟨?_, ?_⟩
  · rw [run_diag]
    rfl
  · obtain ⟨ds, h1, h2⟩ := run_cmd_list p r data draw_data params
    refine ⟨ds, h1, ?_⟩
    have hall : ∀ c ∈ callback_free draw_data.CmdLists, c.UserCallback = 0 := by
      intro c hc
      simpa using (List.mem_filter.mp hc).2
    exact (forall₂_and_right_mem h2 hall).imp (fun d c h => by
      obtain ⟨hc, i, v, hr⟩ := h
      exact ⟨hc, hr.2.2.2.1, hr.2.2.2.2.2.2.1⟩)

/-- C8: the renderer calls of a run that set a buffer capacity are one create_geometry with
the two size-only descriptors of the totals when the stored vertex buffer handle is
empty, and otherwise the two size-only update_geometry calls of the totals, nothing else;
and when the totals are the sums of the per-list buffer sizes, every upload range
[offset, offset + size) of the run ends within the total declared for its buffer. -/
theorem capacity_is_declared_explicitly (p : ImGuiPass) (r : Renderer) (data : RenderData)
    (draw_data : ImDrawData) (params : Parameters)
    (hi : data.total_index_count = idx_total draw_data.CmdLists)
    (hv : data.total_vertex_count = vtx_total draw_data.CmdLists) :
    (p.run r data draw_data params).renderer.filter RendererCall.declares_capacity
      = (if p.m_imgui_vertex_buffer = c_empty_handle then
          [RendererCall.create_geometry
            { index :=
                LowLevelGeometryData.size_only data.total_index_count data.index_bytesize,
              vertex :=
                LowLevelGeometryData.size_only data.total_vertex_count data.vertec_bytesize,
              flags := { dynamic := true, include_blas := false } }]
        else
          [RendererCall.update_geometry p.m_imgui_index_buffer
            (LowLevelGeometryData.size_only data.total_index_count data.index_bytesize),
           RendererCall.update_geometry p.m_imgui_vertex_buffer
            (LowLevelGeometryData.size_only data.total_vertex_count data.vertec_bytesize)]) ∧
    ∃ offs : List (Nat × Nat),
      offs.length = draw_data.CmdLists.length ∧
      (p.run r data draw_data params).renderer.filter RendererCall.is_upload
        = (draw_data.CmdLists.zip offs).flatMap (fun x =>
            [RendererCall.update_geometry_at
               (p.run r data draw_data params).pass.m_imgui_index_buffer
               { addr := x.1.IdxBuffer.Data, element_count := x.1.IdxBuffer.Size,
                 element_bytesize := data.index_bytesize } x.2.1,
             RendererCall.update_geometry_at
               (p.run r data draw_data params).pass.m_imgui_vertex_buffer
               { addr := x.1.VtxBuffer.Data, element_count := x.1.VtxBuffer.Size,
                 element_bytesize := data.vertec_bytesize } x.2.2]) ∧
      ∀ x ∈ draw_data.CmdLists.zip offs,
        x.2.1 + x.1.IdxBuffer.Size ≤ data.total_index_count ∧
        x.2.2 + x.1.VtxBuffer.Size ≤ data.total_vertex_count := by
  refine ⟨?_, ?_⟩
  · rw [run_renderer]
    simp only [List.filter_append, upload_loop_no_capacity]
    by_cases h : p.m_imgui_vertex_buffer = c_empty_handle
    · simp [update_buffer_size, h, RendererCall.declares_capacity]
    · simp [update_buffer_size, h, RendererCall.declares_capacity]
  · obtain ⟨offs, h1, h2, h3⟩ := upload_loop_offsets (update_buffer_size p r data).1 data
      draw_data.CmdLists 0 0
    refine ⟨offs, h1, ?_, ?_⟩
    · have hup : ∀ (xs : List (ImDrawList × Nat × Nat)),
          (xs.flatMap (fun x =>
            [RendererCall.update_geometry_at
               (update_buffer_size p r data).1.m_imgui_index_buffer
               { addr := x.1.IdxBuffer.Data, element_count := x.1.IdxBuffer.Size,
                 element_bytesize := data.index_bytesize } x.2.1,
             RendererCall.update_geometry_at
               (update_buffer_size p r data).1.m_imgui_vertex_buffer
               { addr := x.1.VtxBuffer.Data, element_count := x.1.VtxBuffer.Size,
                 element_bytesize := data.vertec_bytesize } x.2.2])).filter
            RendererCall.is_upload
          = xs.flatMap (fun x =>
            [RendererCall.update_geometry_at
               (update_buffer_size p r data).1.m_imgui_index_buffer
               { addr := x.1.IdxBuffer.Data, element_count := x.1.IdxBuffer.Size,
                 element_bytesize := data.index_bytesize } x.2.1,
             RendererCall.update_geometry_at
               (update_buffer_size p r data).1.m_imgui_vertex_buffer
               { addr := x.1.VtxBuffer.Data, element_count := x.1.VtxBuffer.Size,
                 element_bytesize := data.vertec_bytesize } x.2.2]) := by
        intro xs
        induction xs with
        | nil => rfl
        | cons x xs ih =>
          simp only [List.flatMap_cons, List.filter_append, ih]
          simp [RendererCall.is_upload]
      rw [run_renderer, run_pass, h2]
      simp only [List.filter_append, hup]
      by_cases h : p.m_imgui_vertex_buffer = c_empty_handle
      · simp [update_buffer_size, h, RendererCall.is_upload]
      · simp [update_buffer_size, h, RendererCall.is_upload]
    · intro x hx
      have := h3 x hx
      omega

/-- C8 at `two_lists`, run on a pass whose buffers exist: the totals 15 and 12 are the
sums of the list sizes, and the two capacities are declared by two size-only calls. -/
theorem capacity_is_declared_explicitly_witness :
    two_lists_data.total_index_count = idx_total two_lists.CmdLists ∧
    two_lists_data.total_vertex_count = vtx_total two_lists.CmdLists ∧
    (warm_pass.run fixed_renderer two_lists_data two_lists
        { render_target := 42 }).renderer.filter RendererCall.declares_capacity
      = [RendererCall.update_geometry 7 (LowLevelGeometryData.size_only 15 2),
         RendererCall.update_geometry 8 (LowLevelGeometryData.size_only 12 20)] :=
  ⟨rfl, rfl,
   (capacity_is_declared_explicitly warm_pass fixed_renderer two_lists_data two_lists
      { render_target := 42 } rfl rfl).1⟩

/-- C9, refuted as stated: on a pipeline whose scene 1 is registered and empty,
add_model(1, 7) leaves model 7 outside scene 1. -/
theorem add_model_does_not_associate :
    (empty_pipeline.register_scene { name := "S" }).2.is_valid_scene 1 = true ∧
    (((empty_pipeline.register_scene { name := "S" }).2.add_model 1 7).scene_has_model 1 7)
      = false := by
  decide

/-- C9 as amended: add_model has an empty body and leaves the pipeline as it was, so
after add_model(s, m) the model m is associated with scene s exactly when it was
before the call. -/
theorem add_model_changes_nothing (p : DeferredPipeline) (s : SceneHandle) (m : ModelHandle) :
    p.add_model s m = p ∧
    (p.add_model s m).scene_has_model s m = p.scene_has_model s m :=
  ⟨rfl, rfl⟩

/-- C10: a second run, started from the pass the first run left behind, with the same
draw data, parameters and renderer answers, records the same command list as the
first, draw for draw, reports the same diagnostics and leaves the pass as the first run
left it; the first run may be the one that creates the geometry buffers. -/
theorem second_run_records_same_commands (p : ImGuiPass) (r : Renderer) (data : RenderData)
    (draw_data : ImDrawData) (params : Parameters) :
    ((p.run r data draw_data params).pass.run r data draw_data params).cmd_list
      = (p.run r data draw_data params).cmd_list ∧
    ((p.run r data draw_data params).pass.run r data draw_data params).diag
      = (p.run r data draw_data params).diag ∧
    ((p.run r data draw_data params).pass.run r data draw_data params).pass
      = (p.run r data draw_data params).pass := by
  have h := update_buffer_size_idem p r data
  refine ⟨?_, ?_, ?_⟩
  · simp only [ImGuiPass.run, h]
  · simp only [ImGuiPass.run, h]
  · simp only [ImGuiPass.run, h]

/-- The two runs of C10 on scenario C, the first creating the buffers: the first asks
the renderer for the buffers, the second declares their sizes, and both record the
same two draws on the buffers 7 and 8. -/
theorem scenario_c_second_run :
    (fresh_pass.run fixed_renderer scenario_c_data scenario_c { render_target := 42 }).pass
      = warm_pass ∧
    (warm_pass.run fixed_renderer scenario_c_data scenario_c { render_target := 42 }).cmd_list
      = (fresh_pass.run fixed_renderer scenario_c_data scenario_c
          { render_target := 42 }).cmd_list := by
  have h : (fresh_pass.run fixed_renderer scenario_c_data scenario_c
      { render_target := 42 }).pass = warm_pass := by decide
  refine ⟨h, ?_⟩
  rw [← h]
  exact (rei.second_run_records_same_commands fresh_pass fixed_renderer scenario_c_data
    scenario_c { render_target := 42 }).1

end rei

namespace CEL

/-- The triangles the constructor pushes, one per index triangle and in order. -/
theorem mesh_triangles (va : List Vertex) (ta : List (TriangleImp Int)) :
    (Mesh.Mesh va ta).triangles
      = ta.map (fun tri => { a := VertexIt.begin.add tri.a, b := VertexIt.begin.add tri.b,
                             c := VertexIt.begin.add tri.c }) := by
  have h : ∀ (ts : List (TriangleImp Int)) (acc : List (TriangleImp VertexIt)),
      ts.foldl (fun triangles tri =>
          triangles ++ [{ a := VertexIt.begin.add tri.a, b := VertexIt.begin.add tri.b,
                          c := VertexIt.begin.add tri.c }]) acc
        = acc ++ ts.map (fun tri => { a := VertexIt.begin.add tri.a,
                                      b := VertexIt.begin.add tri.b,
                                      c := VertexIt.begin.add tri.c }) := by
    intro ts
    induction ts with
    | nil => intro acc; simp
    | cons t ts ih => intro acc; simp [List.foldl_cons, ih]
  simpa [Mesh.Mesh] using h ta []

/-- An iterator at an index inside the vector points at the vertex of that index. -/
theorem deref_begin_add (vs : List Vertex) (k : Int) (hk : index_ok vs.length k) :
    (VertexIt.begin.add k).deref vs = vs[k.toNat]? ∧ k.toNat < vs.length := by
  obtain ⟨h0, h1⟩ := hk
  refine ⟨?_, by omega⟩
  simp [VertexIt.deref, VertexIt.add, VertexIt.begin, h0]

/-- C11: for index triangles whose indices all lie in `[0, |va|)`, the constructed mesh
has the vertices `va`, has as many triangles as `ta`, and its triangles pair off with
those of `ta` in order: the corners of each are iterators at the positions `a`, `b`, `c`
of the index triangle, and they point at the vertices of the mesh with those indices. -/
theorem mesh_constructor_keeps_indices (va : List Vertex) (ta : List (TriangleImp Int))
    (h : ∀ t ∈ ta, index_ok va.length t.a ∧ index_ok va.length t.b ∧
      index_ok va.length t.c) :
    (Mesh.Mesh va ta).vertices = va ∧
    (Mesh.Mesh va ta).triangles.length = ta.length ∧
    List.Forall₂ (fun (tri : TriangleImp VertexIt) (t : TriangleImp Int) =>
        (tri.a.pos = t.a ∧ tri.b.pos = t.b ∧ tri.c.pos = t.c) ∧
        (tri.a.deref (Mesh.Mesh va ta).vertices = va[t.a.toNat]? ∧ t.a.toNat < va.length) ∧
        (tri.b.deref (Mesh.Mesh va ta).vertices = va[t.b.toNat]? ∧ t.b.toNat < va.length) ∧
        (tri.c.deref (Mesh.Mesh va ta).vertices = va[t.c.toNat]? ∧ t.c.toNat < va.length))
      (Mesh.Mesh va ta).triangles ta := by
  have hv : (Mesh.Mesh va ta).vertices = va := rfl
  refine ⟨hv, by simp [mesh_triangles], ?_⟩
  rw [mesh_triangles, hv, List.forall₂_map_left_iff, List.forall₂_same]
  intro t ht
  obtain ⟨ha, hb, hc⟩ := h t ht
  refine ⟨⟨?_, ?_, ?_⟩, deref_begin_add va t.a ha, deref_begin_add va t.b hb,
    deref_begin_add va t.c hc⟩ <;> simp [VertexIt.add, VertexIt.begin]

/-- C11 on the single triangle of scenario B: the three corners point at the third,
the first and the second vertex. -/
theorem mesh_constructor_keeps_indices_witness :
    (∀ t ∈ triangle_indices, index_ok triangle_vertices.length t.a ∧
      index_ok triangle_vertices.length t.b ∧ index_ok triangle_vertices.length t.c) ∧
    (Mesh.Mesh triangle_vertices triangle_indices).vertices = triangle_vertices ∧
    (Mesh.Mesh triangle_vertices triangle_indices).triangles.length = 1 := by
  have h : ∀ t ∈ triangle_indices, index_ok triangle_vertices.length t.a ∧
      index_ok triangle_vertices.length t.b ∧ index_ok triangle_vertices.length t.c := by
    simp [triangle_indices, triangle_vertices, index_ok]
  exact ⟨h, (mesh_constructor_keeps_indices triangle_vertices triangle_indices h).1,
    (mesh_constructor_keeps_indices triangle_vertices triangle_indices h).2.1⟩

/-- C13, refuted as stated: the constructor stores 2 as the red component, and
multiplying white by 2 gives four components equal to 2; neither colour is in range. -/
theorem color_leaves_range :
    (Color.rgb 2 0 0).r = 2 ∧ ¬ (Color.rgb 2 0 0).in_range ∧
    (Color.rgb 1 1 1).in_range ∧ (Color.rgb 1 1 1).mul 2 = Color.rgba 2 2 2 2 ∧
    ¬ ((Color.rgb 1 1 1).mul 2).in_range := by
  refine ⟨rfl, ?_, ?_, ?_, ?_⟩
  · norm_num [Color.in_range, Color.rgb, Color.rgba]
  · norm_num [Color.in_range, Color.rgb, Color.rgba]
  · norm_num [Color.mul, Color.rgb, Color.rgba]
  · norm_num [Color.in_range, Color.mul, Color.rgb, Color.rgba]

/-- C13 as amended: the constructor stores its arguments as they are, alpha being 1
when it is left out, so a colour built from arguments in `[0, 1]` has its four
components in `[0, 1]`; and multiplication by `c` scales all four components, alpha
included, which keeps them in `[0, 1]` when `c` is in `[0, 1]`. -/
theorem color_stays_in_range (r g b a c : ℚ) (hr : 0 ≤ r ∧ r ≤ 1) (hg : 0 ≤ g ∧ g ≤ 1)
    (hb : 0 ≤ b ∧ b ≤ 1) (ha : 0 ≤ a ∧ a ≤ 1) (hc : 0 ≤ c ∧ c ≤ 1) :
    Color.rgba r g b a = { r := r, g := g, b := b, a := a } ∧
    Color.rgb r g b = { r := r, g := g, b := b, a := 1 } ∧
    (Color.rgba r g b a).in_range ∧ (Color.rgb r g b).in_range ∧
    (Color.rgba r g b a).mul c = { r := r * c, g := g * c, b := b * c, a := a * c } ∧
    ((Color.rgba r g b a).mul c).in_range ∧ ((Color.rgb r g b).mul c).in_range := by
  have hm : ∀ x : ℚ, 0 ≤ x ∧ x ≤ 1 → 0 ≤ x * c ∧ x * c ≤ 1 := fun x hx =>
    ⟨mul_nonneg hx.1 hc.1, mul_le_one₀ hx.2 hc.1 hc.2⟩
  have h1 : (0 : ℚ) ≤ 1 ∧ (1 : ℚ) ≤ 1 := ⟨zero_le_one, le_refl 1⟩
  exact ⟨rfl, rfl, ⟨hr, hg, hb, ha⟩, ⟨hr, hg, hb, h1⟩, rfl,
    ⟨hm r hr, hm g hg, hm b hb, hm a ha⟩, ⟨hm r hr, hm g hg, hm b hb, hm 1 h1⟩⟩

/-- The amended C13 on the default grey of a vertex, halved. -/
theorem color_stays_in_range_witness :
    ((0 : ℚ) ≤ 1 / 2 ∧ (1 / 2 : ℚ) ≤ 1) ∧
    (Color.rgba (1 / 2) (1 / 2) (1 / 2) 1).mul (1 / 2)
      = { r := 1 / 2 * (1 / 2), g := 1 / 2 * (1 / 2), b := 1 / 2 * (1 / 2),
          a := 1 * (1 / 2) } ∧
    ((Color.rgba (1 / 2) (1 / 2) (1 / 2) 1).mul (1 / 2)).in_range := by
  have hh : (0 : ℚ) ≤ 1 / 2 ∧ (1 / 2 : ℚ) ≤ 1 := by norm_num
  have h1 : (0 : ℚ) ≤ 1 ∧ (1 : ℚ) ≤ 1 := by norm_num
  exact ⟨hh, (color_stays_in_range (1 / 2) (1 / 2) (1 / 2) 1 (1 / 2) hh hh hh h1 hh).2.2.2.2.1,
    (color_stays_in_range (1 / 2) (1 / 2) (1 / 2) 1 (1 / 2) hh hh hh h1 hh).2.2.2.2.2.1⟩

end CEL
